import Mathlib

/-
Shallow embedding of the banking DevOps microservice
(src/app/jwt_manager.py, src/app/main.py, src/app/models.py).

Modelling conventions:
* Python dicts with string keys are association lists with unique keys
  (`PDict`); `dget`/`dset` model `d.get(k)` / `d[k] = v` (set replaces the
  existing entry in place, otherwise appends, matching dict insertion order).
* The consumed-token cache `JWTManager._used_tokens` maps the decoded
  "jti" value (an arbitrary JSON value in Python) to the float timestamp
  at which it was consumed; timestamps are modelled as `Int` seconds.
* An encoded JWT is modelled structurally: `Jwt.signed claims secret` is a
  structurally well-formed token whose MAC was produced with `secret`;
  `Jwt.malformed s` is any string that is not a structurally valid JWT.
  `jwtDecode` models `jwt.decode(token, key, algorithms=["HS256"])` from
  PyJWT as used by the repository: signature check first, then the default
  registered-claim validation in PyJWT's order — "iat" (numeric if
  present), "nbf" (numeric if present and not in the future, else
  ImmatureSignatureError, an InvalidTokenError), "exp" (numeric if
  present; expired iff exp <= now, ExpiredSignatureError), "iss" (a no-op
  because the repository passes no issuer argument) and "aud" (with no
  audience argument a present truthy "aud" claim raises
  InvalidAudienceError, an InvalidTokenError).
  Numeric-string timestamp claims (PyJWT coerces through int()) are not
  modelled; the repository only ever produces numeric timestamps.
* Each Python method reads the wall clock (time.time() and
  datetime.utcnow()) possibly several times during one call; a call is
  modelled as instantaneous, with a single `now : Int` parameter standing
  for every clock read inside that call.
* Python functions that return None are given an `Option` return slot that
  is `none` on every path, so properties about return values stay statable.
-/

namespace BankJwt

/-- JSON-style values that can appear in a JWT claims dictionary. Python
truthiness (`if not x`) is `JValue.truthy`. -/
inductive JValue where
  | str (s : String)
  | num (n : Int)
  | bool (b : Bool)
  | null
deriving DecidableEq, Repr

/-- Python truthiness of a JSON value: empty string, zero, False and None
are falsy. -/
def JValue.truthy : JValue → Bool
  | .str s => !s.isEmpty
  | .num n => decide (n ≠ 0)
  | .bool b => b
  | .null => false

/-- A Python dict with string keys, as an association list with unique keys. -/
abbrev PDict := List (String × JValue)

/-- Model of `d.get(key)`: the value at `key`, if present. -/
def dget : PDict → String → Option JValue
  | [], _ => none
  | (k, v) :: rest, key => if k = key then some v else dget rest key

/-- Model of `d[key] = v` (also of one key of `d.update({...})`): replace the
existing entry in place, otherwise append. -/
def dset : PDict → String → JValue → PDict
  | [], key, v => [(key, v)]
  | (k, w) :: rest, key, v =>
    if k = key then (key, v) :: rest else (k, w) :: dset rest key v

/-- The consumed-token cache `JWTManager._used_tokens`: decoded "jti" value
to consumption timestamp. -/
abbrev UsedMap := List (JValue × Int)

/-- Lookup in the consumed-token cache. -/
def uget : UsedMap → JValue → Option Int
  | [], _ => none
  | (k, v) :: rest, key => if k = key then some v else uget rest key

/-- Model of `jti in self._used_tokens`. -/
def umem (u : UsedMap) (key : JValue) : Bool :=
  (uget u key).isSome

/-- Model of `self._used_tokens[jti] = t`. -/
def uset : UsedMap → JValue → Int → UsedMap
  | [], key, t => [(key, t)]
  | (k, w) :: rest, key, t =>
    if k = key then (key, t) :: rest else (k, w) :: uset rest key t

/-- Python dicts have pairwise-distinct keys; states reachable from a real
`JWTManager` satisfy this invariant. -/
def KeysNodup (u : UsedMap) : Prop :=
  (u.map Prod.fst).Nodup

/-- State of `JWTManager` (jwt_manager.py). `secret_key` stands for the
configured or randomly generated signing secret; `cleanup_interval` is the
`_cleanup_interval` attribute (60 in `__init__`); `last_cleanup` is the
`_last_cleanup` attribute. -/
structure JWTManager where
  secret_key : String
  token_expiry_seconds : Int
  used_tokens : UsedMap
  cleanup_interval : Int
  last_cleanup : Int
deriving DecidableEq, Repr

/-- Model of `JWTManager.__init__`: empty cache, cleanup interval 60,
`_last_cleanup = time.time()`. The secret (randomly generated when absent)
is a parameter. -/
def JWTManager.init (secret_key : String) (token_expiry_seconds : Int)
    (now : Int) : JWTManager :=
  { secret_key := secret_key
    token_expiry_seconds := token_expiry_seconds
    used_tokens := []
    cleanup_interval := 60
    last_cleanup := now }

/-- An encoded JWT, structurally: either a well-formed token carrying its
claims and the secret that produced its MAC, or a structurally malformed
string (carrying the wire string itself). -/
inductive Jwt where
  | signed (claims : PDict) (secret : String)
  | malformed (s : String)
deriving DecidableEq, Repr

/-- The two PyJWT failure classes the repository distinguishes:
`jwt.ExpiredSignatureError` and every other `jwt.InvalidTokenError`. -/
inductive DecodeErr where
  | expiredSignature
  | invalidToken
deriving DecidableEq, Repr

/-- PyJWT "iat" validation: if present, the claim must be a numeric
timestamp, otherwise InvalidIssuedAtError (an InvalidTokenError
subclass). -/
def checkIat (claims : PDict) : Except DecodeErr Unit :=
  match dget claims "iat" with
  | none => Except.ok ()
  | some (JValue.num _) => Except.ok ()
  | some _ => Except.error DecodeErr.invalidToken

/-- PyJWT "nbf" validation: if present, the claim must be numeric (else a
DecodeError) and not in the future — `nbf > now` raises
ImmatureSignatureError. Both are InvalidTokenError subclasses, which the
repository's except clause maps to 401 "Invalid JWT token". -/
def checkNbf (claims : PDict) (now : Int) : Except DecodeErr Unit :=
  match dget claims "nbf" with
  | none => Except.ok ()
  | some (JValue.num n) =>
    if now < n then Except.error DecodeErr.invalidToken else Except.ok ()
  | some _ => Except.error DecodeErr.invalidToken

/-- PyJWT "exp" validation: if present, the claim must be numeric and the
token is expired iff `exp <= now` (ExpiredSignatureError). -/
def checkExp (claims : PDict) (now : Int) : Except DecodeErr Unit :=
  match dget claims "exp" with
  | none => Except.ok ()
  | some (JValue.num e) =>
    if e ≤ now then Except.error DecodeErr.expiredSignature else Except.ok ()
  | some _ => Except.error DecodeErr.invalidToken

/-- PyJWT "aud" validation when `jwt.decode` is called with no audience
argument, as in this repository: a present and truthy "aud" claim raises
InvalidAudienceError (an InvalidTokenError subclass); an absent or falsy
"aud" claim is accepted. -/
def checkAud (claims : PDict) : Except DecodeErr Unit :=
  match dget claims "aud" with
  | none => Except.ok ()
  | some v =>
    if v.truthy then Except.error DecodeErr.invalidToken else Except.ok ()

/-- PyJWT default claim validation in its source order: iat, then nbf,
then exp, then iss, then aud. The repository calls
`jwt.decode(token, key, algorithms=["HS256"])` with no issuer argument, so
the iss step is a no-op (and is omitted here); the aud step with no
audience argument rejects any truthy "aud" claim. -/
def validateClaims (claims : PDict) (now : Int) : Except DecodeErr PDict :=
  match checkIat claims with
  | Except.error e => Except.error e
  | Except.ok _ =>
    match checkNbf claims now with
    | Except.error e => Except.error e
    | Except.ok _ =>
      match checkExp claims now with
      | Except.error e => Except.error e
      | Except.ok _ =>
        match checkAud claims with
        | Except.error e => Except.error e
        | Except.ok _ => Except.ok claims

/-- Model of `jwt.decode(token, key, algorithms=["HS256"])`: a malformed
string or a wrong-secret MAC fails signature verification (before any claim
validation); otherwise the timestamp claims are validated. -/
def jwtDecode (token : Jwt) (key : String) (now : Int) : Except DecodeErr PDict :=
  match token with
  | .malformed _ => Except.error DecodeErr.invalidToken
  | .signed claims secret =>
    if secret = key then validateClaims claims now
    else Except.error DecodeErr.invalidToken

/-- `fastapi.HTTPException` as raised by this repository: a status code and
a detail string. -/
structure HTTPExc where
  status_code : Nat
  detail : String
deriving DecidableEq, Repr

/-- Model of `JWTManager.generate_jwt`. The random `secrets.token_urlsafe(16)`
JWT id is a parameter `jti`; `now` stands for the clock reads. The source
mutates the caller-supplied dict via `payload.update({...})` and reads but
never writes `self`, so the result carries the token, the dict object after
the call, and the (unchanged) manager state. -/
def generate_jwt (m : JWTManager) (payload : Option PDict) (jti : String)
    (now : Int) : Jwt × PDict × JWTManager :=
  let p0 := payload.getD []
  let p1 := dset (dset (dset p0 "jti" (JValue.str jti))
      "iat" (JValue.num now))
      "exp" (JValue.num (now + m.token_expiry_seconds))
  (Jwt.signed p1 m.secret_key, p1, m)

/-- Model of `JWTManager._cleanup_expired_tokens`. The first component is
the Python return value: the function is annotated `-> None` and every
return path returns `None`, hence always `none` (the number of removed
entries is only logged). -/
def cleanup_expired_tokens (m : JWTManager) (now : Int) :
    Option Nat × JWTManager :=
  if now - m.last_cleanup < m.cleanup_interval then (none, m)
  else
    let expiry_threshold := now - m.token_expiry_seconds
    let expired_tokens :=
      (m.used_tokens.filter (fun kv => decide (kv.2 < expiry_threshold))).map
        Prod.fst
    let used' := m.used_tokens.filter (fun kv => !(expired_tokens.contains kv.1))
    (none, { m with used_tokens := used', last_cleanup := now })

/-- Model of `JWTManager.validate_jwt`: decode and verify, require a truthy
"jti", reject a jti already in the cache, otherwise record it as used, run
the opportunistic cleanup, and return the decoded payload. Error paths
leave the manager state untouched (the exceptions are raised before any
mutation). -/
def validate_jwt (m : JWTManager) (token : Jwt) (now : Int) :
    Except HTTPExc PDict × JWTManager :=
  match jwtDecode token m.secret_key now with
  | .error .expiredSignature =>
    (Except.error ⟨401, "JWT token expired"⟩, m)
  | .error .invalidToken =>
    (Except.error ⟨401, "Invalid JWT token"⟩, m)
  | .ok payload =>
    match dget payload "jti" with
    | none => (Except.error ⟨401, "Invalid JWT: missing unique identifier"⟩, m)
    | some jti =>
      if jti.truthy = false then
        (Except.error ⟨401, "Invalid JWT: missing unique identifier"⟩, m)
      else if umem m.used_tokens jti then
        (Except.error ⟨401, "JWT token already used"⟩, m)
      else
        let m1 : JWTManager := { m with used_tokens := uset m.used_tokens jti now }
        (Except.ok payload, (cleanup_expired_tokens m1 now).2)

/-- A sequence of admissions against one manager instance: fold the state
through successive `validate_jwt` calls (token, call time). -/
def admitSeq (m : JWTManager) : List (Jwt × Int) → JWTManager
  | [] => m
  | c :: rest => admitSeq (validate_jwt m c.1 c.2).2 rest

/-- The static API key constant of main.py. -/
def VALID_API_KEY : String := "2f5ae96c-b558-4c7b-a590-a501ae1c3f6c"

/-- Python truthiness of an optional header string: absent or empty is
falsy. -/
def pyTruthy : Option String → Bool
  | none => false
  | some s => !s.isEmpty

/-- Model of `validate_security_headers` (main.py): `none` means the checks
passed, `some e` models the raised `HTTPException`. -/
def validate_security_headers (api_key jwt_token : Option String) :
    Option HTTPExc :=
  if pyTruthy api_key = false ∨ api_key ≠ some VALID_API_KEY then
    some ⟨401, "Invalid API Key"⟩
  else if pyTruthy jwt_token = false then
    some ⟨401, "Missing JWT token"⟩
  else
    none

/-- Model of `build_success_message` (main.py). -/
def build_success_message (recipient_name : String) : String :=
  "Hello " ++ recipient_name ++ " your message will be send"

/-- The request body of POST /DevOps (models.py `DevOpsRequest`). Pydantic
field validation (min lengths, positivity) happens before the handler runs
and is orthogonal to the claims, so the fields are carried as plain data. -/
structure DevOpsRequest where
  message : String
  «to» : String
  from_ : String
  timeToLifeSec : Int
deriving DecidableEq, Repr

/-- The response body of POST /DevOps (models.py `DevOpsResponse`). -/
structure DevOpsResponse where
  message : String
deriving DecidableEq, Repr

/-- Model of the `devops_endpoint` handler (main.py): validate the two
security headers, then answer with the success message. Note the handler
consults no `JWTManager` at all. -/
def devops_endpoint (request : DevOpsRequest)
    (x_parse_rest_api_key x_jwt_kwy : Option String) :
    Except HTTPExc DevOpsResponse :=
  match validate_security_headers x_parse_rest_api_key x_jwt_kwy with
  | some e => Except.error e
  | none => Except.ok ⟨build_success_message request.«to»⟩

/-
Helper lemmas about the dictionary operations.
-/

theorem dget_dset_self (p : PDict) (k : String) (v : JValue) :
    dget (dset p k v) k = some v := by
  induction p with
  | nil => simp [dset, dget]
  | cons kv rest ih =>
    obtain ⟨k', w⟩ := kv
    by_cases h : k' = k
    · simp [dset, h, dget]
    · simp [dset, h, dget, ih]

theorem dget_dset_ne (p : PDict) (k k' : String) (v : JValue) (h : k ≠ k') :
    dget (dset p k v) k' = dget p k' := by
  induction p with
  | nil => simp [dset, dget, h]
  | cons kv rest ih =>
    obtain ⟨k₀, w⟩ := kv
    by_cases h0 : k₀ = k
    · simp [dset, h0, dget, h]
    · simp [dset, h0, dget, ih]

theorem uget_uset_self (u : UsedMap) (k : JValue) (t : Int) :
    uget (uset u k t) k = some t := by
  induction u with
  | nil => simp [uset, uget]
  | cons kv rest ih =>
    obtain ⟨k', w⟩ := kv
    by_cases h : k' = k
    · simp [uset, h, uget]
    · simp [uset, h, uget, ih]

theorem uget_uset_ne (u : UsedMap) (k k' : JValue) (t : Int) (h : k ≠ k') :
    uget (uset u k t) k' = uget u k' := by
  induction u with
  | nil => simp [uset, uget, h]
  | cons kv rest ih =>
    obtain ⟨k₀, w⟩ := kv
    by_cases h0 : k₀ = k
    · simp [uset, h0, uget, h]
    · simp [uset, h0, uget, ih]

theorem uget_mem (u : UsedMap) (k : JValue) (t : Int)
    (h : uget u k = some t) : (k, t) ∈ u := by
  induction u with
  | nil => simp [uget] at h
  | cons kv rest ih =>
    obtain ⟨k', w⟩ := kv
    by_cases h0 : k' = k
    · simp [uget, h0] at h
      simp [h0, h]
    · simp [uget, h0] at h
      exact List.mem_cons_of_mem _ (ih h)

theorem uget_unique (u : UsedMap) (k : JValue) (a b : Int)
    (hwf : KeysNodup u) (hmem : (k, a) ∈ u) (hget : uget u k = some b) :
    a = b := by
  induction u with
  | nil => simp at hmem
  | cons kv rest ih =>
    obtain ⟨k', w⟩ := kv
    unfold KeysNodup at hwf
    simp only [List.map_cons, List.nodup_cons] at hwf
    by_cases h0 : k' = k
    · simp [uget, h0] at hget
      rcases List.mem_cons.mp hmem with h | h
      · cases h; exact hget
      · exfalso
        exact hwf.1 (h0 ▸ (List.mem_map.mpr ⟨(k, a), h, rfl⟩))
    · simp [uget, h0] at hget
      rcases List.mem_cons.mp hmem with h | h
      · exfalso; exact h0 (congrArg Prod.fst h).symm
      · exact ih hwf.2 h hget

theorem uget_filter (u : UsedMap) (k : JValue) (t : Int)
    (p : JValue × Int → Bool)
    (hget : uget u k = some t) (hp : p (k, t) = true) :
    uget (u.filter p) k = some t := by
  induction u with
  | nil => simp [uget] at hget
  | cons kv rest ih =>
    obtain ⟨k', w⟩ := kv
    by_cases h0 : k' = k
    · simp [uget, h0] at hget
      subst h0; subst hget
      simp [List.filter, hp, uget]
    · simp [uget, h0] at hget
      by_cases hw : p (k', w) = true
      · simp [List.filter, hw, uget, h0]
        exact ih hget
      · simp only [List.filter, Bool.not_eq_true] at hw ⊢
        rw [hw]
        exact ih hget

theorem keysNodup_filter (u : UsedMap) (p : JValue × Int → Bool)
    (hwf : KeysNodup u) : KeysNodup (u.filter p) :=
  List.Nodup.sublist (List.Sublist.map Prod.fst (List.filter_sublist u)) hwf

theorem mem_keys_uset (u : UsedMap) (k a : JValue) (t : Int)
    (h : a ∈ (uset u k t).map Prod.fst) :
    a ∈ u.map Prod.fst ∨ a = k := by
  induction u with
  | nil =>
    right
    simpa [uset] using h
  | cons kv rest ih =>
    obtain ⟨k', w⟩ := kv
    by_cases h0 : k' = k
    · rw [show uset ((k', w) :: rest) k t = (k, t) :: rest from by
        simp [uset, h0]] at h
      rw [List.map_cons, List.mem_cons] at h
      rcases h with h | h
      · right; exact h
      · left
        rw [List.map_cons, List.mem_cons]
        right; exact h
    · rw [show uset ((k', w) :: rest) k t = (k', w) :: uset rest k t from by
        simp [uset, h0]] at h
      rw [List.map_cons, List.mem_cons] at h
      rcases h with h | h
      · left
        rw [List.map_cons, List.mem_cons]
        left; exact h
      · rcases ih h with h2 | h2
        · left
          rw [List.map_cons, List.mem_cons]
          right; exact h2
        · right; exact h2

theorem keysNodup_uset (u : UsedMap) (k : JValue) (t : Int)
    (hwf : KeysNodup u) : KeysNodup (uset u k t) := by
  induction u with
  | nil => simp [uset, KeysNodup]
  | cons kv rest ih =>
    obtain ⟨k', w⟩ := kv
    unfold KeysNodup at hwf ⊢
    rw [List.map_cons, List.nodup_cons] at hwf
    by_cases h0 : k' = k
    · subst h0
      rw [show uset ((k', w) :: rest) k' t = (k', t) :: rest from by simp [uset]]
      rw [List.map_cons, List.nodup_cons]
      exact hwf
    · rw [show uset ((k', w) :: rest) k t = (k', w) :: uset rest k t from by
        simp [uset, h0]]
      rw [List.map_cons, List.nodup_cons]
      refine ⟨?_, ih hwf.2⟩
      intro hmem
      rcases mem_keys_uset rest k k' t hmem with h | h
      · exact hwf.1 h
      · exact h0 h

/-
Helper lemmas about cleanup and validate: the configuration fields are
never mutated, and a cache entry too recent for the eviction threshold
survives any call.
-/

theorem cleanup_fields (m : JWTManager) (now : Int) :
    (cleanup_expired_tokens m now).2.secret_key = m.secret_key ∧
    (cleanup_expired_tokens m now).2.token_expiry_seconds = m.token_expiry_seconds ∧
    (cleanup_expired_tokens m now).2.cleanup_interval = m.cleanup_interval := by
  unfold cleanup_expired_tokens
  split <;> simp

theorem cleanup_ret_none (m : JWTManager) (now : Int) :
    (cleanup_expired_tokens m now).1 = none := by
  unfold cleanup_expired_tokens
  split <;> simp

theorem cleanup_uget_preserve (m : JWTManager) (now : Int) (k : JValue) (t : Int)
    (hwf : KeysNodup m.used_tokens)
    (hget : uget m.used_tokens k = some t)
    (hsurv : ¬ (t < now - m.token_expiry_seconds)) :
    uget (cleanup_expired_tokens m now).2.used_tokens k = some t := by
  by_cases hcl : now - m.last_cleanup < m.cleanup_interval
  · rw [cleanup_expired_tokens, if_pos hcl]
    exact hget
  · rw [cleanup_expired_tokens, if_neg hcl]
    show uget (m.used_tokens.filter fun kv =>
        !((m.used_tokens.filter fun kv =>
            decide (kv.2 < now - m.token_expiry_seconds)).map
          Prod.fst).contains kv.1) k = some t
    refine uget_filter _ _ _ _ hget ?_
    show (!((m.used_tokens.filter fun kv =>
        decide (kv.2 < now - m.token_expiry_seconds)).map
      Prod.fst).contains k) = true
    rw [Bool.not_eq_true']
    rw [Bool.eq_false_iff]
    intro hcont
    have hk : k ∈ (m.used_tokens.filter
        (fun kv => decide (kv.2 < now - m.token_expiry_seconds))).map Prod.fst :=
      List.elem_iff.mp hcont
    obtain ⟨kv, hkv, hfst⟩ := List.mem_map.mp hk
    obtain ⟨hmem, hlt⟩ := List.mem_filter.mp hkv
    obtain ⟨k₀, t₀⟩ := kv
    simp only at hfst
    subst hfst
    have ht0 : t₀ = t :=
      uget_unique m.used_tokens k₀ t₀ t hwf hmem hget
    subst ht0
    exact hsurv (by simpa using hlt)

theorem cleanup_keysNodup (m : JWTManager) (now : Int)
    (hwf : KeysNodup m.used_tokens) :
    KeysNodup (cleanup_expired_tokens m now).2.used_tokens := by
  unfold cleanup_expired_tokens
  split
  · exact hwf
  · exact keysNodup_filter _ _ hwf

theorem validate_fields (m : JWTManager) (token : Jwt) (now : Int) :
    (validate_jwt m token now).2.secret_key = m.secret_key ∧
    (validate_jwt m token now).2.token_expiry_seconds = m.token_expiry_seconds ∧
    (validate_jwt m token now).2.cleanup_interval = m.cleanup_interval := by
  unfold validate_jwt
  split
  · simp
  · simp
  · split
    · simp
    · split
      · simp
      · split
        · simp
        · exact cleanup_fields _ now

theorem validate_step_preserve (m : JWTManager) (token : Jwt) (tc : Int)
    (k : JValue) (t : Int)
    (hwf : KeysNodup m.used_tokens)
    (hget : uget m.used_tokens k = some t)
    (hsurv : ¬ (t < tc - m.token_expiry_seconds)) :
    uget (validate_jwt m token tc).2.used_tokens k = some t ∧
    KeysNodup (validate_jwt m token tc).2.used_tokens := by
  unfold validate_jwt
  split
  · exact ⟨hget, hwf⟩
  · exact ⟨hget, hwf⟩
  · split
    · exact ⟨hget, hwf⟩
    · split
      · exact ⟨hget, hwf⟩
      · split
        · exact ⟨hget, hwf⟩
        · rename_i jti heqj htr hmem
          have hne : jti ≠ k := by
            intro he
            apply hmem
            rw [he]
            unfold umem
            rw [hget]
            rfl
          constructor
          · exact cleanup_uget_preserve _ tc k t
              (keysNodup_uset _ _ _ hwf)
              (by rw [uget_uset_ne _ _ _ _ hne]; exact hget)
              hsurv
          · exact cleanup_keysNodup _ tc (keysNodup_uset _ _ _ hwf)

theorem admitSeq_preserve (calls : List (Jwt × Int)) (m : JWTManager)
    (k : JValue) (t tmax : Int)
    (hwf : KeysNodup m.used_tokens)
    (hget : uget m.used_tokens k = some t)
    (httl : ¬ (t < tmax - m.token_expiry_seconds))
    (hcalls : ∀ c ∈ calls, c.2 ≤ tmax) :
    uget (admitSeq m calls).used_tokens k = some t ∧
    KeysNodup (admitSeq m calls).used_tokens ∧
    (admitSeq m calls).secret_key = m.secret_key ∧
    (admitSeq m calls).token_expiry_seconds = m.token_expiry_seconds := by
  induction calls generalizing m with
  | nil => exact ⟨hget, hwf, rfl, rfl⟩
  | cons c rest ih =>
    have hc : c.2 ≤ tmax := hcalls c (List.mem_cons_self c rest)
    have hstep := validate_step_preserve m c.1 c.2 k t hwf hget
      (by intro hlt; apply httl; omega)
    have hf := validate_fields m c.1 c.2
    have ih' := ih (validate_jwt m c.1 c.2).2 hstep.2 hstep.1
      (by rw [hf.2.1]; exact httl)
      (fun c' hc' => hcalls c' (List.mem_cons_of_mem _ hc'))
    simp only [admitSeq]
    refine ⟨ih'.1, ih'.2.1, ?_, ?_⟩
    · rw [ih'.2.2.1, hf.1]
    · rw [ih'.2.2.2, hf.2.1]

/-
Helper lemmas about the token produced by generate_jwt: the reserved
claims it carries, how it preserves the caller keys, and how a fresh,
unexpired token is admitted.
-/

theorem gen_fst (m : JWTManager) (payload : Option PDict) (jti : String)
    (now : Int) :
    (generate_jwt m payload jti now).1 =
      Jwt.signed (generate_jwt m payload jti now).2.1 m.secret_key := rfl

theorem gen_dget_exp (m : JWTManager) (payload : Option PDict) (jti : String)
    (now : Int) :
    dget (generate_jwt m payload jti now).2.1 "exp" =
      some (JValue.num (now + m.token_expiry_seconds)) := by
  simp only [generate_jwt]
  exact dget_dset_self _ _ _

theorem gen_dget_iat (m : JWTManager) (payload : Option PDict) (jti : String)
    (now : Int) :
    dget (generate_jwt m payload jti now).2.1 "iat" =
      some (JValue.num now) := by
  simp only [generate_jwt]
  rw [dget_dset_ne _ _ _ _ (by decide : ("exp" : String) ≠ "iat")]
  exact dget_dset_self _ _ _

theorem gen_dget_jti (m : JWTManager) (payload : Option PDict) (jti : String)
    (now : Int) :
    dget (generate_jwt m payload jti now).2.1 "jti" =
      some (JValue.str jti) := by
  simp only [generate_jwt]
  rw [dget_dset_ne _ _ _ _ (by decide : ("exp" : String) ≠ "jti"),
    dget_dset_ne _ _ _ _ (by decide : ("iat" : String) ≠ "jti")]
  exact dget_dset_self _ _ _

theorem gen_dget_other (m : JWTManager) (payload : Option PDict) (jti : String)
    (now : Int) (k : String)
    (hk1 : k ≠ "jti") (hk2 : k ≠ "iat") (hk3 : k ≠ "exp") :
    dget (generate_jwt m payload jti now).2.1 k = dget (payload.getD []) k := by
  simp only [generate_jwt]
  rw [dget_dset_ne _ _ _ _ (Ne.symm hk3), dget_dset_ne _ _ _ _ (Ne.symm hk2),
    dget_dset_ne _ _ _ _ (Ne.symm hk1)]

theorem truthy_of_ne_empty (jti : String) (hjti : jti ≠ "") :
    (JValue.str jti).truthy = true := by
  unfold JValue.truthy
  rw [Bool.not_eq_true']
  rw [Bool.eq_false_iff]
  intro h
  exact hjti ((String.isEmpty_iff jti).mp h)

theorem checkIat_ok (claims : PDict)
    (h : dget claims "iat" = none ∨
      ∃ i : Int, dget claims "iat" = some (JValue.num i)) :
    checkIat claims = Except.ok () := by
  rcases h with h | ⟨i, h⟩ <;> simp [checkIat, h]

theorem checkNbf_ok (claims : PDict) (now : Int)
    (h : dget claims "nbf" = none ∨
      ∃ n : Int, dget claims "nbf" = some (JValue.num n) ∧ n ≤ now) :
    checkNbf claims now = Except.ok () := by
  rcases h with h | ⟨n, h, hn⟩
  · simp [checkNbf, h]
  · have hx : ¬ (now < n) := by omega
    simp [checkNbf, h, hx]

theorem checkExp_ok (claims : PDict) (now e : Int)
    (h : dget claims "exp" = some (JValue.num e)) (hlt : now < e) :
    checkExp claims now = Except.ok () := by
  have hx : ¬ (e ≤ now) := by omega
  simp [checkExp, h, hx]

theorem checkExp_expired (claims : PDict) (now e : Int)
    (h : dget claims "exp" = some (JValue.num e)) (hle : e ≤ now) :
    checkExp claims now = Except.error DecodeErr.expiredSignature := by
  simp [checkExp, h, hle]

theorem checkAud_ok (claims : PDict)
    (h : dget claims "aud" = none ∨
      ∃ v : JValue, dget claims "aud" = some v ∧ v.truthy = false) :
    checkAud claims = Except.ok () := by
  rcases h with h | ⟨v, h, hv⟩
  · simp [checkAud, h]
  · simp [checkAud, h, hv]

theorem validateClaims_ok (claims : PDict) (now : Int)
    (h1 : checkIat claims = Except.ok ())
    (h2 : checkNbf claims now = Except.ok ())
    (h3 : checkExp claims now = Except.ok ())
    (h4 : checkAud claims = Except.ok ()) :
    validateClaims claims now = Except.ok claims := by
  simp [validateClaims, h1, h2, h3, h4]

theorem validateClaims_expired (claims : PDict) (now : Int)
    (h1 : checkIat claims = Except.ok ())
    (h2 : checkNbf claims now = Except.ok ())
    (h3 : checkExp claims now = Except.error DecodeErr.expiredSignature) :
    validateClaims claims now = Except.error DecodeErr.expiredSignature := by
  simp [validateClaims, h1, h2, h3]

theorem gen_validateClaims_ok (m : JWTManager) (payload : Option PDict)
    (jti : String) (tiss t : Int)
    (ht : t < tiss + m.token_expiry_seconds)
    (hnbf : dget (payload.getD []) "nbf" = none ∨
      ∃ n : Int, dget (payload.getD []) "nbf" = some (JValue.num n) ∧ n ≤ t)
    (haud : dget (payload.getD []) "aud" = none ∨
      ∃ v : JValue, dget (payload.getD []) "aud" = some v ∧ v.truthy = false) :
    validateClaims (generate_jwt m payload jti tiss).2.1 t =
      Except.ok (generate_jwt m payload jti tiss).2.1 := by
  have hnbfg : dget (generate_jwt m payload jti tiss).2.1 "nbf" =
      dget (payload.getD []) "nbf" :=
    gen_dget_other m payload jti tiss "nbf" (by decide) (by decide) (by decide)
  have haudg : dget (generate_jwt m payload jti tiss).2.1 "aud" =
      dget (payload.getD []) "aud" :=
    gen_dget_other m payload jti tiss "aud" (by decide) (by decide) (by decide)
  exact validateClaims_ok _ t
    (checkIat_ok _ (Or.inr ⟨tiss, gen_dget_iat m payload jti tiss⟩))
    (checkNbf_ok _ t (by rw [hnbfg]; exact hnbf))
    (checkExp_ok _ t (tiss + m.token_expiry_seconds)
      (gen_dget_exp m payload jti tiss) ht)
    (checkAud_ok _ (by rw [haudg]; exact haud))

theorem validate_generate_fresh (m : JWTManager) (payload : Option PDict)
    (jti : String) (tiss t : Int)
    (hjti : jti ≠ "")
    (hfresh : umem m.used_tokens (JValue.str jti) = false)
    (ht : t < tiss + m.token_expiry_seconds)
    (hnbf : dget (payload.getD []) "nbf" = none ∨
      ∃ n : Int, dget (payload.getD []) "nbf" = some (JValue.num n) ∧ n ≤ t)
    (haud : dget (payload.getD []) "aud" = none ∨
      ∃ v : JValue, dget (payload.getD []) "aud" = some v ∧ v.truthy = false) :
    validate_jwt m (generate_jwt m payload jti tiss).1 t =
      (Except.ok (generate_jwt m payload jti tiss).2.1,
       (cleanup_expired_tokens
         { m with used_tokens := uset m.used_tokens (JValue.str jti) t } t).2) := by
  have hvc := gen_validateClaims_ok m payload jti tiss t ht hnbf haud
  rw [validate_jwt, gen_fst, jwtDecode]
  simp [hvc, gen_dget_jti m payload jti tiss,
    truthy_of_ne_empty jti hjti, hfresh]

theorem uget_of_mem_nodup (u : UsedMap) (k : JValue) (t : Int)
    (hwf : KeysNodup u) (hmem : (k, t) ∈ u) : uget u k = some t := by
  induction u with
  | nil => simp at hmem
  | cons kv rest ih =>
    obtain ⟨k', w⟩ := kv
    unfold KeysNodup at hwf
    rw [List.map_cons, List.nodup_cons] at hwf
    rcases List.mem_cons.mp hmem with h | h
    · cases h
      simp [uget]
    · have hk : k ≠ k' := by
        intro he
        exact hwf.1 (he ▸ List.mem_map.mpr ⟨(k, t), h, rfl⟩)
      have hk' : k' ≠ k := fun he => hk he.symm
      rw [show uget ((k', w) :: rest) k = uget rest k from by simp [uget, hk']]
      exact ih hwf.2 h

theorem validate_generate_used (m m2 : JWTManager) (payload : Option PDict)
    (jti : String) (tiss t2 : Int)
    (hjti : jti ≠ "")
    (hsk : m2.secret_key = m.secret_key)
    (humem : umem m2.used_tokens (JValue.str jti) = true)
    (ht : t2 < tiss + m.token_expiry_seconds)
    (hnbf : dget (payload.getD []) "nbf" = none ∨
      ∃ n : Int, dget (payload.getD []) "nbf" = some (JValue.num n) ∧ n ≤ t2)
    (haud : dget (payload.getD []) "aud" = none ∨
      ∃ v : JValue, dget (payload.getD []) "aud" = some v ∧ v.truthy = false) :
    (validate_jwt m2 (generate_jwt m payload jti tiss).1 t2).1 =
      Except.error ⟨401, "JWT token already used"⟩ := by
  have hvc := gen_validateClaims_ok m payload jti tiss t2 ht hnbf haud
  rw [validate_jwt, gen_fst, jwtDecode]
  simp [hsk, hvc, gen_dget_jti m payload jti tiss,
    truthy_of_ne_empty jti hjti, humem]

/-
Claim theorems.
-/

/-- C1: once `validate_jwt` has admitted a token issued by the manager
(fresh nonempty jti, admitted at or after issuance and before expiry;
the caller payload's pass-through "nbf"/"aud" claims, if any, benign —
exactly the tokens whose first admission can succeed, since PyJWT's
default validation rejects a future "nbf" or truthy "aud" outright),
every subsequent admission of the same encoded token on the same instance
— after an arbitrary sequence of intervening admissions whose call times
do not exceed the second presentation time, which is itself still before
the token's expiry so that the signature still verifies and the token is
not yet expired — is rejected with the 401 "JWT token already used"
rejection. -/
theorem validate_jwt_single_use
    (m : JWTManager) (payload : Option PDict) (jti : String)
    (tiss t1 t2 : Int) (calls : List (Jwt × Int))
    (hwf : KeysNodup m.used_tokens)
    (hjti : jti ≠ "")
    (hfresh : umem m.used_tokens (JValue.str jti) = false)
    (hit : tiss ≤ t1)
    (h12 : t1 ≤ t2)
    (h1e : t1 < tiss + m.token_expiry_seconds)
    (h2e : t2 < tiss + m.token_expiry_seconds)
    (hnbf : dget (payload.getD []) "nbf" = none ∨
      ∃ n : Int, dget (payload.getD []) "nbf" = some (JValue.num n) ∧ n ≤ t1)
    (haud : dget (payload.getD []) "aud" = none ∨
      ∃ v : JValue, dget (payload.getD []) "aud" = some v ∧ v.truthy = false)
    (hcalls : ∀ c ∈ calls, c.2 ≤ t2) :
    (validate_jwt m (generate_jwt m payload jti tiss).1 t1).1 =
      Except.ok (generate_jwt m payload jti tiss).2.1 ∧
    (validate_jwt
        (admitSeq (validate_jwt m (generate_jwt m payload jti tiss).1 t1).2 calls)
        (generate_jwt m payload jti tiss).1 t2).1 =
      Except.error ⟨401, "JWT token already used"⟩ := by
  have hnbf2 : dget (payload.getD []) "nbf" = none ∨
      ∃ n : Int, dget (payload.getD []) "nbf" = some (JValue.num n) ∧ n ≤ t2 := by
    rcases hnbf with h | ⟨n, h, hn⟩
    · exact Or.inl h
    · exact Or.inr ⟨n, h, by omega⟩
  have hfirst := validate_generate_fresh m payload jti tiss t1 hjti hfresh h1e
    hnbf haud
  have hwfU : KeysNodup (uset m.used_tokens (JValue.str jti) t1) :=
    keysNodup_uset _ _ _ hwf
  have hk1 : uget (uset m.used_tokens (JValue.str jti) t1) (JValue.str jti)
      = some t1 := uget_uset_self _ _ _
  have h1 : uget (cleanup_expired_tokens
      { m with used_tokens := uset m.used_tokens (JValue.str jti) t1 }
      t1).2.used_tokens (JValue.str jti) = some t1 := by
    apply cleanup_uget_preserve _ t1 _ t1 hwfU hk1
    show ¬ (t1 < t1 - m.token_expiry_seconds)
    omega
  have hwf1 : KeysNodup (cleanup_expired_tokens
      { m with used_tokens := uset m.used_tokens (JValue.str jti) t1 }
      t1).2.used_tokens := cleanup_keysNodup _ t1 hwfU
  have hcf := cleanup_fields
    { m with used_tokens := uset m.used_tokens (JValue.str jti) t1 } t1
  have hA := admitSeq_preserve calls
    (cleanup_expired_tokens
      { m with used_tokens := uset m.used_tokens (JValue.str jti) t1 } t1).2
    (JValue.str jti) t1 t2 hwf1 h1
    (by
      rw [hcf.2.1]
      show ¬ (t1 < t2 - m.token_expiry_seconds)
      omega)
    hcalls
  refine ⟨by rw [hfirst], ?_⟩
  rw [hfirst]
  apply validate_generate_used m _ payload jti tiss t2 hjti _ _ h2e hnbf2 haud
  · rw [hA.2.2.1, hcf.1]
  · unfold umem
    rw [hA.1]
    rfl

/-- C1 witness: a concrete manager, token and times instantiating the
single-use theorem. -/
theorem validate_jwt_single_use_witness :
    (validate_jwt (JWTManager.init "k" 300 0)
        (generate_jwt (JWTManager.init "k" 300 0) none "J" 0).1 1).1 =
      Except.ok (generate_jwt (JWTManager.init "k" 300 0) none "J" 0).2.1 ∧
    (validate_jwt
        (admitSeq (validate_jwt (JWTManager.init "k" 300 0)
          (generate_jwt (JWTManager.init "k" 300 0) none "J" 0).1 1).2 [])
        (generate_jwt (JWTManager.init "k" 300 0) none "J" 0).1 2).1 =
      Except.error ⟨401, "JWT token already used"⟩ :=
  validate_jwt_single_use (JWTManager.init "k" 300 0) none "J" 0 1 2 []
    (by unfold KeysNodup; decide) (by decide) (by decide) (by decide)
    (by decide) (by decide) (by decide) (Or.inl rfl) (Or.inl rfl) (by simp)

/-- C4: whenever `validate_jwt` rejects a token — invalid, expired, or
already used — the manager state (in particular the consumed-record
mapping) is unchanged by that call; and a well-formed token (right secret,
numeric or absent "iat", numeric "exp", and "nbf"/"aud" claims — if
present at all — that do not independently fail PyJWT's default
validation, which runs before the exp check for nbf and would reject a
future nbf as InvalidToken rather than TokenExpired) presented at or
after its expiry is rejected with 401 "JWT token expired" and leaves the
state unchanged, regardless of whether it was ever admitted before. -/
theorem validate_jwt_reject_frame (m : JWTManager) (token : Jwt) (now : Int) :
    (∀ e : HTTPExc, (validate_jwt m token now).1 = Except.error e →
      (validate_jwt m token now).2 = m) ∧
    (∀ claims : PDict, ∀ ex : Int,
      token = Jwt.signed claims m.secret_key →
      (dget claims "iat" = none ∨ ∃ i : Int, dget claims "iat" = some (JValue.num i)) →
      (dget claims "nbf" = none ∨
        ∃ n : Int, dget claims "nbf" = some (JValue.num n) ∧ n ≤ now) →
      (dget claims "aud" = none ∨
        ∃ v : JValue, dget claims "aud" = some v ∧ v.truthy = false) →
      dget claims "exp" = some (JValue.num ex) →
      ex ≤ now →
      validate_jwt m token now = (Except.error ⟨401, "JWT token expired"⟩, m)) := by
  constructor
  · unfold validate_jwt
    split
    · intro e _; rfl
    · intro e _; rfl
    · split
      · intro e _; rfl
      · split
        · intro e _; rfl
        · split
          · intro e _; rfl
          · intro e he
            simp at he
  · intro claims ex htok hiat hnbf haud hexp hle
    subst htok
    have hvc : validateClaims claims now = Except.error DecodeErr.expiredSignature :=
      validateClaims_expired claims now (checkIat_ok _ hiat)
        (checkNbf_ok _ now hnbf) (checkExp_expired _ now ex hexp hle)
    rw [validate_jwt, jwtDecode]
    simp [hvc]

/-- C4 witness: a never-admitted, well-formed token presented exactly at
its expiry is rejected as expired and the state is untouched. -/
theorem validate_jwt_reject_frame_witness :
    validate_jwt ⟨"k", 300, [], 60, 0⟩
        (Jwt.signed [("jti", JValue.str "J"), ("iat", JValue.num 0),
          ("exp", JValue.num 300)] "k") 300 =
      (Except.error ⟨401, "JWT token expired"⟩, ⟨"k", 300, [], 60, 0⟩) :=
  (validate_jwt_reject_frame ⟨"k", 300, [], 60, 0⟩ _ 300).2
    [("jti", JValue.str "J"), ("iat", JValue.num 0), ("exp", JValue.num 300)]
    300 rfl (Or.inr ⟨0, rfl⟩) (Or.inl rfl) (Or.inl rfl) rfl (by decide)

/-- C6: every token produced by `generate_jwt` carries numeric "iat" and
"exp" claims with exp - iat equal to the configured
`token_expiry_seconds` exactly. -/
theorem generate_jwt_exp_minus_iat (m : JWTManager) (payload : Option PDict)
    (jti : String) (now : Int) :
    ∃ claims : PDict, ∃ i e : Int,
      (generate_jwt m payload jti now).1 = Jwt.signed claims m.secret_key ∧
      dget claims "iat" = some (JValue.num i) ∧
      dget claims "exp" = some (JValue.num e) ∧
      e - i = m.token_expiry_seconds :=
  ⟨(generate_jwt m payload jti now).2.1, now, now + m.token_expiry_seconds,
    gen_fst m payload jti now, gen_dget_iat m payload jti now,
    gen_dget_exp m payload jti now, by ring⟩

/-- C7 counterexample: the round trip does not succeed for every caller
payload. A caller payload carrying "nbf" set to a future timestamp is
passed opaquely into the claims, and PyJWT's default validation rejects
the issued token at admission with ImmatureSignatureError — surfaced by
`validate_jwt` as 401 "Invalid JWT token" — instead of the claimed
success. -/
theorem issue_admit_roundtrip_counterexample :
    (validate_jwt (JWTManager.init "k" 300 0)
        (generate_jwt (JWTManager.init "k" 300 0)
          (some [("nbf", JValue.num 1000)]) "J" 0).1 1).1 =
      Except.error ⟨401, "Invalid JWT token"⟩ := rfl

/-- C7 (amended): a freshly issued token (fresh nonempty jti), whose
caller payload carries no registered "nbf"/"aud" claim that would
independently fail PyJWT's default validation (nbf absent or not in the
future at admission time, aud absent or falsy), admitted before its
expiry on the same instance, succeeds and returns the merged payload,
which carries the reserved "jti", "iat", "exp" fields (reserved values
winning over any colliding caller key) together with every other
caller-supplied key unchanged. -/
theorem issue_admit_roundtrip (m : JWTManager) (p : PDict) (jti : String)
    (tiss t : Int)
    (hjti : jti ≠ "")
    (hfresh : umem m.used_tokens (JValue.str jti) = false)
    (ht : t < tiss + m.token_expiry_seconds)
    (hnbf : dget p "nbf" = none ∨
      ∃ n : Int, dget p "nbf" = some (JValue.num n) ∧ n ≤ t)
    (haud : dget p "aud" = none ∨
      ∃ v : JValue, dget p "aud" = some v ∧ v.truthy = false) :
    (validate_jwt m (generate_jwt m (some p) jti tiss).1 t).1 =
      Except.ok (generate_jwt m (some p) jti tiss).2.1 ∧
    dget (generate_jwt m (some p) jti tiss).2.1 "jti" = some (JValue.str jti) ∧
    dget (generate_jwt m (some p) jti tiss).2.1 "iat" = some (JValue.num tiss) ∧
    dget (generate_jwt m (some p) jti tiss).2.1 "exp" =
      some (JValue.num (tiss + m.token_expiry_seconds)) ∧
    (∀ k : String, k ≠ "jti" → k ≠ "iat" → k ≠ "exp" →
      dget (generate_jwt m (some p) jti tiss).2.1 k = dget p k) := by
  refine ⟨by rw [validate_generate_fresh m (some p) jti tiss t hjti hfresh ht
      hnbf haud],
    gen_dget_jti m (some p) jti tiss, gen_dget_iat m (some p) jti tiss,
    gen_dget_exp m (some p) jti tiss, ?_⟩
  intro k h1 h2 h3
  rw [gen_dget_other m (some p) jti tiss k h1 h2 h3]
  rfl

/-- C7 witness: round trip at a concrete manager, payload and times. -/
theorem issue_admit_roundtrip_witness :
    (validate_jwt (JWTManager.init "k" 300 0)
        (generate_jwt (JWTManager.init "k" 300 0)
          (some [("role", JValue.str "admin")]) "J" 0).1 1).1 =
      Except.ok (generate_jwt (JWTManager.init "k" 300 0)
        (some [("role", JValue.str "admin")]) "J" 0).2.1 ∧
    dget (generate_jwt (JWTManager.init "k" 300 0)
        (some [("role", JValue.str "admin")]) "J" 0).2.1 "jti" =
      some (JValue.str "J") ∧
    dget (generate_jwt (JWTManager.init "k" 300 0)
        (some [("role", JValue.str "admin")]) "J" 0).2.1 "iat" =
      some (JValue.num 0) ∧
    dget (generate_jwt (JWTManager.init "k" 300 0)
        (some [("role", JValue.str "admin")]) "J" 0).2.1 "exp" =
      some (JValue.num (0 + (JWTManager.init "k" 300 0).token_expiry_seconds)) ∧
    (∀ k : String, k ≠ "jti" → k ≠ "iat" → k ≠ "exp" →
      dget (generate_jwt (JWTManager.init "k" 300 0)
        (some [("role", JValue.str "admin")]) "J" 0).2.1 k =
      dget [("role", JValue.str "admin")] k) :=
  issue_admit_roundtrip (JWTManager.init "k" 300 0)
    [("role", JValue.str "admin")] "J" 0 1
    (by decide) (by decide) (by decide) (Or.inl rfl) (Or.inl rfl)

/-- C5 counterexample: at this concrete input the sweep runs and removes
exactly one entry, yet the call returns none (Python None), not the number
of entries removed. -/
theorem cleanup_returns_none_counterexample :
    (cleanup_expired_tokens ⟨"k", 300, [(JValue.str "a", 0)], 60, 0⟩
        400).2.used_tokens = [] ∧
    (cleanup_expired_tokens ⟨"k", 300, [(JValue.str "a", 0)], 60, 0⟩
        400).1 = none ∧
    (cleanup_expired_tokens ⟨"k", 300, [(JValue.str "a", 0)], 60, 0⟩
        400).1 ≠ some 1 := by
  decide

/-- C5 (amended): the sweep is a no-op when
now - last_cleanup < cleanup_interval; otherwise it removes exactly the
consumed-record entries with consumed_at < now - ttl (never a
still-unexpired entry, as the last conjunct states separately) and sets
last_cleanup to now; its Python return value is always None — the number
of entries removed is only logged, not returned. -/
theorem cleanup_expired_tokens_spec (m : JWTManager) (now : Int)
    (hwf : KeysNodup m.used_tokens) :
    (now - m.last_cleanup < m.cleanup_interval →
      cleanup_expired_tokens m now = (none, m)) ∧
    (¬ (now - m.last_cleanup < m.cleanup_interval) →
      (cleanup_expired_tokens m now).2.used_tokens =
        m.used_tokens.filter
          (fun kv => !decide (kv.2 < now - m.token_expiry_seconds)) ∧
      (cleanup_expired_tokens m now).2.last_cleanup = now) ∧
    (cleanup_expired_tokens m now).1 = none ∧
    (∀ kv ∈ m.used_tokens, ¬ (kv.2 < now - m.token_expiry_seconds) →
      kv ∈ (cleanup_expired_tokens m now).2.used_tokens) := by
  have hfilter : ∀ _h : ¬ (now - m.last_cleanup < m.cleanup_interval),
      (cleanup_expired_tokens m now).2.used_tokens =
        m.used_tokens.filter
          (fun kv => !decide (kv.2 < now - m.token_expiry_seconds)) := by
    intro h
    rw [cleanup_expired_tokens, if_neg h]
    show m.used_tokens.filter _ = _
    apply List.filter_congr
    intro kv hkv
    obtain ⟨k0, t0⟩ := kv
    by_cases hlt : t0 < now - m.token_expiry_seconds
    · have hin : k0 ∈ (m.used_tokens.filter
          (fun kv => decide (kv.2 < now - m.token_expiry_seconds))).map Prod.fst :=
        List.mem_map.mpr ⟨(k0, t0),
          List.mem_filter.mpr ⟨hkv, by simpa using hlt⟩, rfl⟩
      have hc : ((m.used_tokens.filter
          (fun kv => decide (kv.2 < now - m.token_expiry_seconds))).map
            Prod.fst).contains k0 = true := List.elem_iff.mpr hin
      rw [hc]
      simp [hlt]
    · have hc : ((m.used_tokens.filter
          (fun kv => decide (kv.2 < now - m.token_expiry_seconds))).map
            Prod.fst).contains k0 = false := by
        rw [Bool.eq_false_iff]
        intro hcont
        obtain ⟨kv', hkv', hfst⟩ := List.mem_map.mp (List.elem_iff.mp hcont)
        obtain ⟨hmem', hlt'⟩ := List.mem_filter.mp hkv'
        obtain ⟨k1, t1⟩ := kv'
        simp only at hfst
        subst hfst
        have hg : uget m.used_tokens k1 = some t0 :=
          uget_of_mem_nodup _ _ _ hwf hkv
        have ht1 : t1 = t0 := uget_unique _ _ _ _ hwf hmem' hg
        subst ht1
        exact hlt (by simpa using hlt')
      rw [hc]
      simp [hlt]
  refine ⟨?_, ?_, cleanup_ret_none m now, ?_⟩
  · intro h
    rw [cleanup_expired_tokens, if_pos h]
  · intro h
    refine ⟨hfilter h, ?_⟩
    rw [cleanup_expired_tokens, if_neg h]
  · intro kv hkv hts
    by_cases h : now - m.last_cleanup < m.cleanup_interval
    · rw [cleanup_expired_tokens, if_pos h]
      exact hkv
    · rw [hfilter h]
      exact List.mem_filter.mpr ⟨hkv, by simpa using hts⟩

/-- C5 witness: within the sweep interval the call is a no-op returning
None. -/
theorem cleanup_expired_tokens_spec_witness :
    cleanup_expired_tokens ⟨"k", 300, [(JValue.str "a", 0)], 60, 0⟩ 30 =
      (none, ⟨"k", 300, [(JValue.str "a", 0)], 60, 0⟩) :=
  (cleanup_expired_tokens_spec ⟨"k", 300, [(JValue.str "a", 0)], 60, 0⟩ 30
    (by unfold KeysNodup; decide)).1 (by decide)

/-- C8 counterexample: `generate_jwt` mutates the caller-supplied payload
dict in place (`payload.update({...})`): the empty dict passed by the
caller holds the three reserved fields after the call. -/
theorem generate_jwt_mutates_payload_counterexample :
    (generate_jwt ⟨"k", 300, [], 60, 0⟩ (some []) "J" 0).2.1 ≠ [] := by
  decide

/-- C8 (amended): `generate_jwt` leaves the issuer's own state unchanged
and only reads it, but it does have a side effect on its argument: the
caller-supplied payload dict is updated in place with the reserved "jti",
"iat" and "exp" fields (other keys untouched), so any caller dict that
lacked a "jti" key is observably mutated. -/
theorem generate_jwt_effects (m : JWTManager) (payload : Option PDict)
    (jti : String) (now : Int) :
    (generate_jwt m payload jti now).2.2 = m ∧
    dget (generate_jwt m payload jti now).2.1 "jti" = some (JValue.str jti) ∧
    dget (generate_jwt m payload jti now).2.1 "iat" = some (JValue.num now) ∧
    dget (generate_jwt m payload jti now).2.1 "exp" =
      some (JValue.num (now + m.token_expiry_seconds)) ∧
    (∀ k : String, k ≠ "jti" → k ≠ "iat" → k ≠ "exp" →
      dget (generate_jwt m payload jti now).2.1 k = dget (payload.getD []) k) ∧
    (∀ p : PDict, payload = some p → dget p "jti" = none →
      (generate_jwt m payload jti now).2.1 ≠ p) := by
  refine ⟨rfl, gen_dget_jti m payload jti now, gen_dget_iat m payload jti now,
    gen_dget_exp m payload jti now,
    fun k h1 h2 h3 => gen_dget_other m payload jti now k h1 h2 h3, ?_⟩
  intro p hp hnone heq
  have hj := gen_dget_jti m payload jti now
  rw [heq, hnone] at hj
  cases hj

/-- C8 witness: at a concrete caller payload without a "jti" key, the
issuer state is unchanged while the payload dict is observably mutated. -/
theorem generate_jwt_effects_witness :
    (generate_jwt ⟨"k", 300, [], 60, 5⟩
        (some [("role", JValue.str "admin")]) "J" 7).2.2 =
      ⟨"k", 300, [], 60, 5⟩ ∧
    (generate_jwt ⟨"k", 300, [], 60, 5⟩
        (some [("role", JValue.str "admin")]) "J" 7).2.1 ≠
      [("role", JValue.str "admin")] :=
  ⟨(generate_jwt_effects ⟨"k", 300, [], 60, 5⟩
      (some [("role", JValue.str "admin")]) "J" 7).1,
   (generate_jwt_effects ⟨"k", 300, [], 60, 5⟩
      (some [("role", JValue.str "admin")]) "J" 7).2.2.2.2.2
      [("role", JValue.str "admin")] rfl (by decide)⟩

/-- C9: a token whose signature verifies and which passes PyJWT's default
claim validation (unexpired numeric "exp", numeric or absent "iat",
benign or absent "nbf"/"aud") but whose payload maps "jti" to the empty
string (a falsy value) is rejected exactly like a token with no "jti" at
all — 401 "Invalid JWT: missing unique identifier" — and the
consumed-record mapping is left unchanged, because the presence check
tests Python truthiness rather than key membership. -/
theorem validate_jwt_empty_jti (m : JWTManager) (claims : PDict)
    (now e : Int)
    (hiat : dget claims "iat" = none ∨
      ∃ i : Int, dget claims "iat" = some (JValue.num i))
    (hnbf : dget claims "nbf" = none ∨
      ∃ n : Int, dget claims "nbf" = some (JValue.num n) ∧ n ≤ now)
    (haud : dget claims "aud" = none ∨
      ∃ v : JValue, dget claims "aud" = some v ∧ v.truthy = false)
    (hexp : dget claims "exp" = some (JValue.num e))
    (hlt : now < e)
    (hjti : dget claims "jti" = some (JValue.str "")) :
    validate_jwt m (Jwt.signed claims m.secret_key) now =
      (Except.error ⟨401, "Invalid JWT: missing unique identifier"⟩, m) := by
  have hvc : validateClaims claims now = Except.ok claims :=
    validateClaims_ok claims now (checkIat_ok _ hiat) (checkNbf_ok _ now hnbf)
      (checkExp_ok _ now e hexp hlt) (checkAud_ok _ haud)
  have htr : (JValue.str "").truthy = false := rfl
  rw [validate_jwt, jwtDecode]
  simp [hvc, hjti, htr]

/-- C9 witness: a concrete unexpired, correctly signed token whose "jti"
is the empty string is rejected as missing its unique identifier. -/
theorem validate_jwt_empty_jti_witness :
    validate_jwt ⟨"k", 300, [], 60, 0⟩
        (Jwt.signed [("jti", JValue.str ""), ("iat", JValue.num 0),
          ("exp", JValue.num 300)] "k") 10 =
      (Except.error ⟨401, "Invalid JWT: missing unique identifier"⟩,
        ⟨"k", 300, [], 60, 0⟩) :=
  validate_jwt_empty_jti ⟨"k", 300, [], 60, 0⟩
    [("jti", JValue.str ""), ("iat", JValue.num 0), ("exp", JValue.num 300)]
    10 300 (Or.inr ⟨0, rfl⟩) (Or.inl rfl) (Or.inl rfl) rfl (by decide) rfl

/-- C10: a POST /DevOps request carrying the valid API key and an
X-JWT-KWY header that is present but equal to the empty string is rejected
with 401 "Missing JWT token", because the header check tests truthiness of
the value, not mere presence. -/
theorem devops_empty_jwt_header (request : DevOpsRequest) :
    devops_endpoint request (some VALID_API_KEY) (some "") =
      Except.error ⟨401, "Missing JWT token"⟩ := by
  have h : validate_security_headers (some VALID_API_KEY) (some "") =
      some ⟨401, "Missing JWT token"⟩ := by decide
  rw [devops_endpoint, h]

/-- C10 witness: the rejection at a concrete request body. -/
theorem devops_empty_jwt_header_witness :
    devops_endpoint ⟨"This is a test", "Juan Perez", "Rita Asturia", 45⟩
        (some VALID_API_KEY) (some "") =
      Except.error ⟨401, "Missing JWT token"⟩ :=
  devops_empty_jwt_header ⟨"This is a test", "Juan Perez", "Rita Asturia", 45⟩

theorem vsh_valid_key (jwt_token : Option String) :
    validate_security_headers (some VALID_API_KEY) jwt_token =
      if pyTruthy jwt_token = false then some ⟨401, "Missing JWT token"⟩
      else none := by
  rw [validate_security_headers, if_neg]
  intro hc
  rcases hc with hc | hc
  · exact absurd hc (by decide)
  · exact hc rfl

/-- C2 (code-bug evidence): the HTTP layer never calls into the token
admission component. A POST /DevOps request with the valid API key and the
structurally malformed token "invalid.jwt.token" in X-JWT-KWY — which
`validate_jwt` itself rejects as an invalid token — receives the success
message, and since `devops_endpoint` is stateless in the token, the same
holds for a reused or expired token string. This contradicts the
repository's own test test_jwt_token_can_only_be_used_once, which expects
the second presentation of a token at POST /DevOps to get 401 "already
used". -/
theorem devops_endpoint_skips_admission :
    devops_endpoint ⟨"This is a test", "Juan Perez", "Rita Asturia", 45⟩
        (some VALID_API_KEY) (some "invalid.jwt.token") =
      Except.ok ⟨"Hello Juan Perez your message will be send"⟩ ∧
    (validate_jwt (JWTManager.init "secret" 300 0)
        (Jwt.malformed "invalid.jwt.token") 0).1 =
      Except.error ⟨401, "Invalid JWT token"⟩ ∧
    (∀ s : Option String,
      devops_endpoint ⟨"This is a test", "Juan Perez", "Rita Asturia", 45⟩
          (some VALID_API_KEY) s =
        devops_endpoint ⟨"This is a test", "Juan Perez", "Rita Asturia", 45⟩
          (some VALID_API_KEY) (some "invalid.jwt.token") ∨
      devops_endpoint ⟨"This is a test", "Juan Perez", "Rita Asturia", 45⟩
          (some VALID_API_KEY) s =
        Except.error ⟨401, "Missing JWT token"⟩) := by
  refine ⟨?_, rfl, ?_⟩
  · rw [devops_endpoint, vsh_valid_key,
      if_neg (show ¬ (pyTruthy (some "invalid.jwt.token") = false) by decide)]
    rfl
  · intro s
    by_cases hp : pyTruthy s = true
    · left
      rw [devops_endpoint, devops_endpoint, vsh_valid_key, vsh_valid_key,
        if_neg (show ¬ (pyTruthy s = false) by simp [hp]),
        if_neg (show ¬ (pyTruthy (some "invalid.jwt.token") = false) by decide)]
    · right
      rw [devops_endpoint, vsh_valid_key,
        if_pos (show pyTruthy s = false by simpa using hp)]

end BankJwt
